import Mathlib

/-!
Shallow embedding of the candidate-reviewer web skeleton
(src/server/auth.py and src/server/main.py) and proofs about its
declared HTTP surface.

The source declares three routes and three handlers, each handler a
single unconditional return of a constant JSON object.  We model JSON
objects as association lists of string fields (every payload in the
source is a flat object of string fields), handlers as `Except`-valued
constants (the error side is the imported HTTPException channel, which
no handler ever uses), and dispatch as route lookup by method and path
with the framework's default 405/404 fallbacks for a matched path with
the wrong method and for an unmatched path.
-/

namespace CandidateReviewer

/-- HTTP methods a client may use against the app. -/
inductive Method where
  | GET
  | POST
  | PUT
  | DELETE
  | PATCH
  deriving DecidableEq

/-- An inbound HTTP request: method, path, and the rest of the request
context (body, headers, query string), none of which any handler in the
source reads. -/
structure Request where
  method : Method
  path : String
  body : Option String
  headers : List (String × String)
  query : String
  deriving DecidableEq

/-- An HTTP response: numeric status and a flat JSON object body. -/
structure Response where
  status : Nat
  body : List (String × String)
  deriving DecidableEq

/-- A handler result: `Except.ok` is a normal JSON return, `Except.error`
is the HTTPException channel (status code) imported in src/server/auth.py
line 1 but never raised. -/
abbrev HandlerResult := Except Nat (List (String × String))

instance : DecidableEq HandlerResult := fun a b =>
  match a, b with
  | Except.ok x, Except.ok y =>
    if h : x = y then Decidable.isTrue (by rw [h])
    else Decidable.isFalse (by simp [h])
  | Except.error x, Except.error y =>
    if h : x = y then Decidable.isTrue (by rw [h])
    else Decidable.isFalse (by simp [h])
  | Except.ok _, Except.error _ => Decidable.isFalse (by simp)
  | Except.error _, Except.ok _ => Decidable.isFalse (by simp)

/-- src/server/auth.py lines 5-8: `async def signup()` returns the
constant object with message "signup not implemented". -/
def signup : HandlerResult :=
  Except.ok [("message", "signup not implemented")]

/-- src/server/auth.py lines 10-13: `async def login()` returns the
constant object with message "login not implemented". -/
def login : HandlerResult :=
  Except.ok [("message", "login not implemented")]

/-- src/server/main.py lines 9-11: `async def health()` returns the
constant object with field status "ok". -/
def health : HandlerResult :=
  Except.ok [("status", "ok")]

/-- A route table entry: method, path, handler. -/
structure Route where
  method : Method
  path : String
  handler : HandlerResult
  deriving DecidableEq

/-- src/server/auth.py: `router = APIRouter()` followed by the two
`@router.post` registrations, in source order. -/
def authRouter : List Route :=
  [ ⟨Method.POST, "/auth/signup", signup⟩,
    ⟨Method.POST, "/auth/login", login⟩ ]

/-- src/server/main.py: `app = FastAPI()`, then
`app.include_router(auth_router)` (no path prefix, so the router's paths
are unchanged), then the `@app.get` registration of /health. -/
def appRoutes : List Route :=
  authRouter ++ [⟨Method.GET, "/health", health⟩]

/-- Route lookup: first route whose method and path both match. -/
def findRoute (routes : List Route) (m : Method) (p : String) : Option Route :=
  routes.find? fun r => r.method == m && r.path == p

/-- Whether some route is registered at the given path (any method). -/
def pathKnown (routes : List Route) (p : String) : Bool :=
  routes.any fun r => r.path == p

/-- Turn a handler result into an HTTP response: a normal return is
serialized with status 200, an HTTPException becomes its status code
with a detail body (no handler in the source ever takes this branch). -/
def runHandler (h : HandlerResult) : Response :=
  match h with
  | Except.ok payload => ⟨200, payload⟩
  | Except.error code => ⟨code, [("detail", "error")]⟩

/-- Framework dispatch over a route table: a matched method+path runs the
handler; a known path with an unmatched method yields the default 405;
an unknown path yields the default 404. -/
def dispatch (routes : List Route) (req : Request) : Response :=
  match findRoute routes req.method req.path with
  | some r => runHandler r.handler
  | none =>
    if pathKnown routes req.path then
      ⟨405, [("detail", "Method Not Allowed")]⟩
    else
      ⟨404, [("detail", "Not Found")]⟩

/-- The application object: its route table, fixed at startup. -/
structure App where
  routes : List Route
  deriving DecidableEq

/-- The application as constructed by src/server/main.py. -/
def initApp : App := ⟨appRoutes⟩

/-- Handle one request against the started application. -/
def handle (req : Request) : Response :=
  dispatch initApp.routes req

/-- One serving step: the handler runs and the application object is
returned unchanged — no statement in any handler writes any state. -/
def serve (a : App) (req : Request) : App × Response :=
  (a, dispatch a.routes req)

/-- Serve a sequence of requests in order, threading the application
state through. -/
def serveAll (a : App) (reqs : List Request) : App × List Response :=
  match reqs with
  | [] => (a, [])
  | r :: rs =>
    let step := serve a r
    let rest := serveAll step.1 rs
    (rest.1, step.2 :: rest.2)

/-- The response to a request after an arbitrary history of earlier
requests has been served. -/
def responseAfter (history : List Request) (req : Request) : Response :=
  (serve (serveAll initApp history).1 req).2

theorem serveAll_fst (a : App) (reqs : List Request) :
    (serveAll a reqs).1 = a := by
  induction reqs with
  | nil => rfl
  | cons r rs ih => simpa [serveAll, serve] using ih

theorem serveAll_snd (a : App) (reqs : List Request) :
    (serveAll a reqs).2 = reqs.map (fun r => dispatch a.routes r) := by
  induction reqs with
  | nil => rfl
  | cons r rs ih => simp [serveAll, serve, serveAll_fst, ih]

/-- C1: every GET /health request, whatever its body, headers or query,
gets exactly the JSON object with field status "ok" and HTTP status 200. -/
theorem health_always_ok (req : Request)
    (hm : req.method = Method.GET) (hp : req.path = "/health") :
    handle req = ⟨200, [("status", "ok")]⟩ := by
  obtain ⟨m, p, b, hs, q⟩ := req
  simp only at hm hp
  subst hm; subst hp
  rfl

/-- C1 witness: the concrete request GET /health evaluates as the claim
states. -/
theorem health_always_ok_witness :
    handle ⟨Method.GET, "/health", none, [], ""⟩ = ⟨200, [("status", "ok")]⟩ :=
  health_always_ok ⟨Method.GET, "/health", none, [], ""⟩ rfl rfl

/-- C2: every POST /auth/signup request, with any or no body, is served
with exactly the message "signup not implemented" at status 200, and the
application state comes back unchanged (no side effects). -/
theorem signup_stub (req : Request)
    (hm : req.method = Method.POST) (hp : req.path = "/auth/signup") :
    serve initApp req =
      (initApp, ⟨200, [("message", "signup not implemented")]⟩) := by
  obtain ⟨m, p, b, hs, q⟩ := req
  simp only at hm hp
  subst hm; subst hp
  rfl

/-- C2 witness: a concrete POST /auth/signup with a JSON body evaluates
as the claim states. -/
theorem signup_stub_witness :
    serve initApp ⟨Method.POST, "/auth/signup", some "a", [], ""⟩ =
      (initApp, ⟨200, [("message", "signup not implemented")]⟩) :=
  signup_stub ⟨Method.POST, "/auth/signup", some "a", [], ""⟩ rfl rfl

/-- C3: every POST /auth/login request, with any or no body, is served
with exactly the message "login not implemented" at status 200, and the
application state comes back unchanged (no side effects). -/
theorem login_stub (req : Request)
    (hm : req.method = Method.POST) (hp : req.path = "/auth/login") :
    serve initApp req =
      (initApp, ⟨200, [("message", "login not implemented")]⟩) := by
  obtain ⟨m, p, b, hs, q⟩ := req
  simp only at hm hp
  subst hm; subst hp
  rfl

/-- C3 witness: a concrete POST /auth/login with a JSON body evaluates
as the claim states. -/
theorem login_stub_witness :
    serve initApp ⟨Method.POST, "/auth/login", some "x", [], ""⟩ =
      (initApp, ⟨200, [("message", "login not implemented")]⟩) :=
  login_stub ⟨Method.POST, "/auth/login", some "x", [], ""⟩ rfl rfl

/-- C4: neither auth handler reads any input from the request: two POST
requests to the same auth endpoint that differ only in body, headers or
query string get identical responses. -/
theorem auth_ignores_body (r1 r2 : Request)
    (hm1 : r1.method = Method.POST) (hm2 : r2.method = Method.POST)
    (hp : r1.path = r2.path)
    (he : r1.path = "/auth/signup" ∨ r1.path = "/auth/login") :
    handle r1 = handle r2 := by
  obtain ⟨m1, p1, b1, d1, q1⟩ := r1
  obtain ⟨m2, p2, b2, d2, q2⟩ := r2
  simp only at hm1 hm2 hp he
  subst hm1; subst hm2; subst hp
  rcases he with h | h <;> subst h <;> rfl

/-- C4 witness: two concrete POST /auth/signup requests with different
bodies get the same response. -/
theorem auth_ignores_body_witness :
    handle ⟨Method.POST, "/auth/signup", some "a", [], ""⟩ =
      handle ⟨Method.POST, "/auth/signup", some "b", [("k", "v")], "q=1"⟩ :=
  auth_ignores_body
    ⟨Method.POST, "/auth/signup", some "a", [], ""⟩
    ⟨Method.POST, "/auth/signup", some "b", [("k", "v")], "q=1"⟩
    rfl rfl rfl (Or.inl rfl)

/-- C5: no handler can fail or branch: signup, login and health are each
the constant ok result shown, every handler registered in the route
table is on the ok channel (the HTTPException error path is never
taken), and every registered handler serializes to status 200. -/
theorem handlers_never_fail :
    signup = Except.ok [("message", "signup not implemented")] ∧
    login = Except.ok [("message", "login not implemented")] ∧
    health = Except.ok [("status", "ok")] ∧
    (appRoutes.all fun r => r.handler.isOk) = true ∧
    (appRoutes.all fun r => (runHandler r.handler).status == 200) = true := by
  decide

/-- C6: the started application's route table is exactly the three
declared method+path pairs — POST /auth/signup, POST /auth/login (the
router's paths unchanged), GET /health — and serving any sequence of
requests leaves the route table unchanged. -/
theorem route_table_fixed :
    (initApp.routes.map fun r => (r.method, r.path)) =
      [(Method.POST, "/auth/signup"), (Method.POST, "/auth/login"),
       (Method.GET, "/health")] ∧
    ∀ reqs : List Request, (serveAll initApp reqs).1.routes = initApp.routes := by
  exact ⟨by decide, fun reqs => by rw [serveAll_fst]⟩

/-- C7: a GET request to /auth/signup or /auth/login is answered with
the default method-not-allowed response, status 405, whose body is
neither auth payload. -/
theorem wrong_method_on_auth (req : Request)
    (hm : req.method = Method.GET)
    (hp : req.path = "/auth/signup" ∨ req.path = "/auth/login") :
    (handle req).status = 405 ∧
    (handle req).body ≠ [("message", "signup not implemented")] ∧
    (handle req).body ≠ [("message", "login not implemented")] := by
  obtain ⟨m, p, b, hs, q⟩ := req
  simp only at hm hp
  subst hm
  have hr : handle ⟨Method.GET, p, b, hs, q⟩ =
      ⟨405, [("detail", "Method Not Allowed")]⟩ := by
    rcases hp with h | h <;> subst h <;> rfl
  rw [hr]
  refine ⟨rfl, by decide, by decide⟩

/-- C7 witness: the concrete request GET /auth/signup evaluates as the
claim states. -/
theorem wrong_method_on_auth_witness :
    (handle ⟨Method.GET, "/auth/signup", none, [], ""⟩).status = 405 ∧
    (handle ⟨Method.GET, "/auth/signup", none, [], ""⟩).body ≠
      [("message", "signup not implemented")] ∧
    (handle ⟨Method.GET, "/auth/signup", none, [], ""⟩).body ≠
      [("message", "login not implemented")] :=
  wrong_method_on_auth ⟨Method.GET, "/auth/signup", none, [], ""⟩
    rfl (Or.inl rfl)

/-- C8: a request whose path is none of /auth/signup, /auth/login and
/health gets the default not-found response with status 404. -/
theorem unknown_path_404 (req : Request)
    (h1 : req.path ≠ "/auth/signup") (h2 : req.path ≠ "/auth/login")
    (h3 : req.path ≠ "/health") :
    handle req = ⟨404, [("detail", "Not Found")]⟩ := by
  obtain ⟨m, p, b, hs, q⟩ := req
  simp only at h1 h2 h3
  have e1 : ("/auth/signup" == p) = false := beq_eq_false_iff_ne.mpr (Ne.symm h1)
  have e2 : ("/auth/login" == p) = false := beq_eq_false_iff_ne.mpr (Ne.symm h2)
  have e3 : ("/health" == p) = false := beq_eq_false_iff_ne.mpr (Ne.symm h3)
  simp [handle, dispatch, findRoute, pathKnown, appRoutes, authRouter,
    initApp, List.find?, List.any, e1, e2, e3]

/-- C8 witness: the concrete request GET /nonexistent evaluates as the
claim states. -/
theorem unknown_path_404_witness :
    handle ⟨Method.GET, "/nonexistent", none, [], ""⟩ =
      ⟨404, [("detail", "Not Found")]⟩ :=
  unknown_path_404 ⟨Method.GET, "/nonexistent", none, [], ""⟩
    (by decide) (by decide) (by decide)

/-- C9: serving any sequence of requests leaves the application state
equal to the initial state, and each response equals the response the
same request gets against the initial state, independently of all prior
requests. -/
theorem requests_leave_state_unchanged (reqs : List Request) :
    (serveAll initApp reqs).1 = initApp ∧
    (serveAll initApp reqs).2 = reqs.map handle := by
  refine ⟨serveAll_fst _ _, ?_⟩
  rw [serveAll_snd]
  rfl

/-- C10: the handlers are deterministic: two requests matched to the
same route (equal method and equal path), after arbitrary histories of
prior requests and with arbitrary bodies, headers and query strings, get
equal responses — so equal status codes and equal bodies. -/
theorem handlers_deterministic (h1 h2 : List Request) (r1 r2 : Request)
    (hm : r1.method = r2.method) (hp : r1.path = r2.path) :
    responseAfter h1 r1 = responseAfter h2 r2 := by
  unfold responseAfter
  rw [serveAll_fst, serveAll_fst]
  obtain ⟨m1, p1, b1, d1, q1⟩ := r1
  obtain ⟨m2, p2, b2, d2, q2⟩ := r2
  simp only at hm hp
  subst hm; subst hp
  rfl

/-- C10 witness: a POST /auth/signup after one prior request and a fresh
POST /auth/signup with a different body get the same response. -/
theorem handlers_deterministic_witness :
    responseAfter [⟨Method.GET, "/health", none, [], ""⟩]
        ⟨Method.POST, "/auth/signup", some "abc", [("k", "v")], "x=1"⟩ =
      responseAfter [] ⟨Method.POST, "/auth/signup", none, [], ""⟩ :=
  handlers_deterministic
    [⟨Method.GET, "/health", none, [], ""⟩] []
    ⟨Method.POST, "/auth/signup", some "abc", [("k", "v")], "x=1"⟩
    ⟨Method.POST, "/auth/signup", none, [], ""⟩
    rfl rfl

end CandidateReviewer
